import Mathlib

/-!
Verification development for the phoenix-invoice-app repository.

Shallow embedding of the invoice service (`draftOrderToInvoice`,
`generateInvoiceNumber`, the totals block of `generatePDF`, `getInvoice`),
the Shopify API client (`getAccessToken`, `requestWithHeaders`), and the
route handlers (`create-invoice`, `batch-invoice`, `generate-email`).

Monetary amounts are embedded as rationals (`ℚ`).  A JavaScript field that
may be absent or unparseable (`parseFloat` returning `NaN`) is embedded as
`Option ℚ` with `none` for the absent/unparseable case.  JavaScript
truthiness on such fields (`x || fallback`) is embedded explicitly: `none`
and a parsed value of `0` both select the fallback, and an empty string is
falsy.
-/

/-- JS `parseFloat(x) || fallback` on an optional numeric field: absent or
unparseable (`NaN`) or zero selects the fallback. -/
def jsNumOr (x : Option ℚ) (fallback : ℚ) : ℚ :=
  match x with
  | none => fallback
  | some v => if v = 0 then fallback else v

/-- JS `parseFloat(x) || 0`. -/
def parseOr0 (x : Option ℚ) : ℚ := jsNumOr x 0

/-- JS `s || fallback` on an optional string field: absent or empty selects
the fallback. -/
def jsStrOr (x : Option String) (fallback : String) : String :=
  match x with
  | none => fallback
  | some s => if s = "" then fallback else s

/-- JS truthiness of an optional string: present and non-empty. -/
def strTruthy (x : Option String) : Bool :=
  match x with
  | none => false
  | some s => !(s = "")

/-! ## Data model: Shopify draft order (quote), as consumed by the app -/

/-- `draft_order.shipping_line`. -/
structure ShippingLine where
  price : Option ℚ
  title : Option String
deriving Repr, DecidableEq

/-- `shop_money` inside `total_shipping_price_set`. -/
structure ShopMoney where
  amount : Option ℚ
deriving Repr, DecidableEq

/-- `draft_order.total_shipping_price_set`. -/
structure PriceSet where
  shop_money : Option ShopMoney
deriving Repr, DecidableEq

/-- `draft_order.applied_discount`. -/
structure AppliedDiscount where
  amount : Option ℚ
  title : Option String
  description : Option String
deriving Repr, DecidableEq

/-- `draft_order.customer` (inline snapshot). -/
structure Customer where
  first_name : Option String
  last_name : Option String
  email : Option String
  phone : Option String
deriving Repr, DecidableEq

/-- A billing or shipping address snapshot. -/
structure Address where
  name : Option String
  company : Option String
  address1 : Option String
  city : Option String
  province_code : Option String
  zip : Option String
  phone : Option String
deriving Repr, DecidableEq

/-- One `line_items` entry of a draft order. -/
structure LineItem where
  id : Nat
  title : String
  variant_title : Option String
  sku : Option String
  quantity : Nat
  price : Option ℚ
  image_src : Option String
  product_id : Option Nat
deriving Repr, DecidableEq

/-- A Shopify draft order (quote) as the app reads it. -/
structure DraftOrder where
  id : Nat
  name : Option String
  subtotal_price : Option ℚ
  total_price : Option ℚ
  total_discounts : Option ℚ
  total_tax : Option ℚ
  shipping_line : Option ShippingLine
  total_shipping_price_set : Option PriceSet
  applied_discount : Option AppliedDiscount
  customer : Option Customer
  email : Option String
  billing_address : Option Address
  shipping_address : Option Address
  line_items : List LineItem
  currency : Option String
deriving Repr, DecidableEq

/-! ## Decimal rendering of a natural number (JS template `${id}`) -/

/-- The character for one decimal digit. -/
def digitChar (d : Nat) : Char :=
  match d with
  | 0 => '0' | 1 => '1' | 2 => '2' | 3 => '3' | 4 => '4'
  | 5 => '5' | 6 => '6' | 7 => '7' | 8 => '8' | 9 => '9'
  | _ => '*'

/-- Decimal string of a natural number, most significant digit first,
matching JS string interpolation of a nonnegative integer. -/
def natDecimal (n : Nat) : String :=
  if n = 0 then "0"
  else String.mk (((Nat.digits 10 n).map digitChar).reverse)

/-! ## Invoice service (src/unnamed/part_008) -/

/-- `generateInvoiceNumber(draftOrderId)`: `INVOICE_PREFIX` env (default
`INV-`) followed by the draft order id.  `p` is the raw env value. -/
def generateInvoiceNumber (p : Option String) (draftOrderId : Nat) : String :=
  jsStrOr p "INV-" ++ natDecimal draftOrderId

/-- A line item copied onto the invoice record.  `price` is `none` when the
source price was unparseable (`NaN` in JS), and `total` propagates that. -/
structure InvLineItem where
  id : Nat
  title : String
  variantTitle : Option String
  sku : String
  quantity : Nat
  price : Option ℚ
  total : Option ℚ
  image : Option String
  productId : Option Nat
deriving Repr, DecidableEq

/-- The invoice record built by `draftOrderToInvoice` (date fields, the
fixed company block and the fixed notes are process-clock or constant data
and are omitted). -/
structure Invoice where
  invoiceNumber : String
  quoteNumber : String
  draftOrderId : Nat
  lineItems : List InvLineItem
  subtotal : ℚ
  shippingCost : ℚ
  shippingTitle : String
  discountAmount : ℚ
  discountTitle : String
  taxAmount : ℚ
  total : ℚ
  currency : String
deriving Repr, DecidableEq

/-- `draftOrderToInvoice(draftOrder)` from src/unnamed/part_008: subtotal
from `subtotal_price`; shipping from `shipping_line` else
`total_shipping_price_set.shop_money.amount`; discount from
`applied_discount` else `total_discounts`; `taxAmount` is always `0`;
`total` is `parseFloat(total_price) || (subtotal + shipping - discount)`.
`p` is the `INVOICE_PREFIX` env value. -/
def draftOrderToInvoice (p : Option String) (d : DraftOrder) : Invoice :=
  let subtotal := parseOr0 d.subtotal_price
  let shippingCost :=
    match d.shipping_line with
    | some sl => parseOr0 sl.price
    | none =>
      match d.total_shipping_price_set with
      | some ps =>
        match ps.shop_money with
        | some sm => parseOr0 sm.amount
        | none => 0
      | none => 0
  let shippingTitle :=
    match d.shipping_line with
    | some sl => jsStrOr sl.title "Shipping"
    | none => "Shipping"
  let discountAmount :=
    match d.applied_discount with
    | some ad => parseOr0 ad.amount
    | none => parseOr0 d.total_discounts
  let discountTitle :=
    match d.applied_discount with
    | some ad => jsStrOr ad.title (jsStrOr ad.description "Discount")
    | none => "Discount"
  let total := jsNumOr d.total_price (subtotal + shippingCost - discountAmount)
  { invoiceNumber := generateInvoiceNumber p d.id
    quoteNumber := jsStrOr d.name ("Q-" ++ natDecimal d.id)
    draftOrderId := d.id
    lineItems := d.line_items.map fun item =>
      { id := item.id
        title := item.title
        variantTitle := item.variant_title
        sku := jsStrOr item.sku ""
        quantity := item.quantity
        price := item.price
        total := item.price.map (fun pr => pr * item.quantity)
        image := item.image_src
        productId := item.product_id }
    subtotal := subtotal
    shippingCost := shippingCost
    shippingTitle := shippingTitle
    discountAmount := discountAmount
    discountTitle := discountTitle
    taxAmount := 0
    total := total
    currency := jsStrOr d.currency "USD" }

/-! ## Currency formatting and the totals block of `generatePDF` -/

/-- Insert a comma after every third character of a little-endian digit
list, as the JS grouping regex does on the integer part. -/
def insertCommas (l : List Char) : List Char :=
  match l with
  | a :: b :: c :: d :: rest => a :: b :: c :: ',' :: insertCommas (d :: rest)
  | _ => l
termination_by l.length
decreasing_by simp

/-- Decimal string of a natural number with thousands separators. -/
def groupedDecimal (n : Nat) : String :=
  if n = 0 then "0"
  else String.mk (insertCommas ((Nat.digits 10 n).map digitChar)).reverse

/-- Two-digit decimal rendering of a cent remainder. -/
def twoDigits (n : Nat) : String :=
  if n < 10 then "0" ++ natDecimal n else natDecimal n

/-- `formatCurrency(amount)`: `$` plus the amount fixed to two decimals with
thousands separators (rounding to cents embeds JS `toFixed(2)`). -/
def formatCurrency (amount : ℚ) : String :=
  let cents : Int := round (amount * 100)
  let sign := if cents < 0 then "-" else ""
  let n := cents.natAbs
  "$" ++ sign ++ groupedDecimal (n / 100) ++ "." ++ twoDigits (n % 100)

/-- The shipping value cell of the totals block:
`invoice.shippingCost > 0 ? formatCurrency(...) : 'Free'`. -/
def shippingLineValue (inv : Invoice) : String :=
  if inv.shippingCost > 0 then formatCurrency inv.shippingCost else "Free"

/-- The totals block drawn by `generatePDF` (src/unnamed/part_008): the
subtotal line, an optional discount line, the shipping line, an optional
tax line, and the total line. -/
structure TotalsBlock where
  subtotalValue : String
  discountLine : Option (String × String)
  shippingLabel : String
  shippingValue : String
  taxLine : Option String
  totalValue : String
deriving Repr, DecidableEq

/-- Build the totals block exactly as `generatePDF` draws it: the discount
line only when `discountAmount > 0`, the tax line only when
`taxAmount > 0`, the shipping value `Free` when the cost is not positive. -/
def totalsBlock (inv : Invoice) : TotalsBlock :=
  { subtotalValue := formatCurrency inv.subtotal
    discountLine :=
      if inv.discountAmount > 0 then
        some (inv.discountTitle ++ ":", "-" ++ formatCurrency inv.discountAmount)
      else none
    shippingLabel := (if inv.shippingTitle = "" then "Shipping" else inv.shippingTitle) ++ ":"
    shippingValue := shippingLineValue inv
    taxLine := if inv.taxAmount > 0 then some (formatCurrency inv.taxAmount) else none
    totalValue := formatCurrency inv.total }

/-! ## Shopify API client (src/services/shopify.js) -/

/-- In-memory token cache of the client: `this.accessToken` and
`this.tokenExpiry` (ms epoch), both `null` initially. -/
structure ClientState where
  accessToken : Option String
  tokenExpiry : Option Int
deriving Repr, DecidableEq

/-- The client before any call. -/
def initialClientState : ClientState := { accessToken := none, tokenExpiry := none }

/-- Counts of upstream calls issued, used to index the oracles and to
observe how many token exchanges and data requests happened. -/
structure Trace where
  tokenCalls : Nat
  httpCalls : Nat
deriving Repr, DecidableEq

/-- JS guard `this.accessToken && this.tokenExpiry &&
Date.now() < this.tokenExpiry - 300000` (truthiness: empty token and
zero expiry are falsy). -/
def tokenValid (st : ClientState) (now : Int) : Bool :=
  match st.accessToken, st.tokenExpiry with
  | some t, some e => !(t = "") && !(e = 0) && decide (now < e - 300000)
  | _, _ => false

/-- `getAccessToken()`: reuse the cached token while valid; otherwise issue
one token-exchange call (outcome given by `tokenOracle` at the current
token-call index) and on success cache it with expiry `now + 23h`. -/
def getAccessToken (tokenOracle : Nat → Except String String) (now : Int)
    (st : ClientState) (tr : Trace) : Except String String × ClientState × Trace :=
  if tokenValid st now then
    (Except.ok (st.accessToken.getD ""), st, tr)
  else
    match tokenOracle tr.tokenCalls with
    | Except.ok tok =>
      (Except.ok tok,
       { accessToken := some tok, tokenExpiry := some (now + 82800000) },
       { tr with tokenCalls := tr.tokenCalls + 1 })
    | Except.error _ =>
      (Except.error "Failed to obtain Shopify access token", st,
       { tr with tokenCalls := tr.tokenCalls + 1 })

/-- Outcome of one axios data call: success, an HTTP error status carrying
the platform message, or a transport error with no response. -/
inductive HttpResp where
  | ok (data : String)
  | status (code : Nat) (msg : String)
  | netErr (msg : String)
deriving Repr, DecidableEq

/-- Result of one try body of `requestWithHeaders`: success, a 401 (which
the catch block may retry), or any other failure. -/
inductive AttemptResult where
  | success (data : String)
  | unauthorized (msg : String)
  | failure (msg : String)
deriving Repr, DecidableEq

/-- One try body of `requestWithHeaders`: fetch a token (throwing on
exchange failure), then issue the data call (outcome given by `httpOracle`
at the current http-call index). -/
def attempt (tokenOracle : Nat → Except String String) (httpOracle : Nat → HttpResp)
    (now : Int) (st : ClientState) (tr : Trace) :
    AttemptResult × ClientState × Trace :=
  match getAccessToken tokenOracle now st tr with
  | (Except.error e, st1, tr1) => (AttemptResult.failure e, st1, tr1)
  | (Except.ok _, st1, tr1) =>
    let tr2 : Trace := { tr1 with httpCalls := tr1.httpCalls + 1 }
    match httpOracle tr1.httpCalls with
    | HttpResp.ok d => (AttemptResult.success d, st1, tr2)
    | HttpResp.status c m =>
      if c = 401 then (AttemptResult.unauthorized m, st1, tr2)
      else (AttemptResult.failure m, st1, tr2)
    | HttpResp.netErr m => (AttemptResult.failure m, st1, tr2)

/-- `requestWithHeaders(method, endpoint, data, retry = true)`: on a 401 of
the first try, null out the cached access token and re-run the try body
once with `retry = false`; any failure of the second try (401 included)
propagates as an error. -/
def requestWithHeaders (tokenOracle : Nat → Except String String)
    (httpOracle : Nat → HttpResp) (now : Int) (st : ClientState) (tr : Trace) :
    Except String String × ClientState × Trace :=
  match attempt tokenOracle httpOracle now st tr with
  | (AttemptResult.success d, st1, tr1) => (Except.ok d, st1, tr1)
  | (AttemptResult.failure m, st1, tr1) => (Except.error m, st1, tr1)
  | (AttemptResult.unauthorized _, st1, tr1) =>
    match attempt tokenOracle httpOracle now { st1 with accessToken := none } tr1 with
    | (AttemptResult.success d, st2, tr2) => (Except.ok d, st2, tr2)
    | (AttemptResult.failure m, st2, tr2) => (Except.error m, st2, tr2)
    | (AttemptResult.unauthorized m, st2, tr2) => (Except.error m, st2, tr2)

/-! ## Route handlers (src/routes/api.js) -/

/-- JS truthiness of `draftOrder.customer?.email || draftOrder.email`. -/
def hasCustomerEmail (d : DraftOrder) : Bool :=
  strTruthy (d.customer.bind Customer.email) || strTruthy d.email

/-- One result entry of the batch-invoice response: `{id, success}` plus
either `{invoiceNumber, total}` or `{error}`. -/
structure BatchEntry where
  id : Nat
  success : Bool
  invoiceNumber : Option String
  total : Option ℚ
  error : Option String
deriving Repr, DecidableEq

/-- The loop body of `POST /draft-orders/batch-invoice` for one identifier:
fetch the draft order, build the invoice record, render the PDF, then
optionally complete the order and send the invoice email; any failure is
caught and recorded in this identifier's own entry.  Remote calls and the
render are given by oracles. -/
def processOne (fetch : Nat → Except String (Option DraftOrder))
    (render : Invoice → Except String String)
    (complete : Nat → Except String Unit)
    (send : Nat → Except String Unit)
    (sendEmails completeOrders : Bool) (p : Option String) (id : Nat) : BatchEntry :=
  match fetch id with
  | Except.error e => { id := id, success := false, invoiceNumber := none, total := none, error := some e }
  | Except.ok none => { id := id, success := false, invoiceNumber := none, total := none, error := some "Not found" }
  | Except.ok (some d) =>
    let inv := draftOrderToInvoice p d
    match render inv with
    | Except.error e => { id := id, success := false, invoiceNumber := none, total := none, error := some e }
    | Except.ok _ =>
      match (if completeOrders then complete id else Except.ok ()) with
      | Except.error e => { id := id, success := false, invoiceNumber := none, total := none, error := some e }
      | Except.ok _ =>
        match (if sendEmails && hasCustomerEmail d then send id else Except.ok ()) with
        | Except.error e => { id := id, success := false, invoiceNumber := none, total := none, error := some e }
        | Except.ok _ =>
          { id := id, success := true, invoiceNumber := some inv.invoiceNumber,
            total := some inv.total, error := none }

/-- The batch-invoice response body. -/
structure BatchResponse where
  processed : Nat
  successful : Nat
  failed : Nat
  results : List BatchEntry
deriving Repr, DecidableEq

/-- `POST /draft-orders/batch-invoice`: process each identifier in turn,
then report `processed`, `successful`, `failed` and the per-identifier
result list. -/
def batchInvoice (fetch : Nat → Except String (Option DraftOrder))
    (render : Invoice → Except String String)
    (complete : Nat → Except String Unit)
    (send : Nat → Except String Unit)
    (sendEmails completeOrders : Bool) (p : Option String)
    (draftOrderIds : List Nat) : BatchResponse :=
  let results := draftOrderIds.map
    (processOne fetch render complete send sendEmails completeOrders p)
  { processed := results.length
    successful := (results.filter (fun r => r.success)).length
    failed := (results.filter (fun r => !r.success)).length
    results := results }

/-- Observable side effects of the single-conversion handler, in the order
they happen.  No branch of the handler ever emits `deleted`. -/
inductive Effect where
  | wrote (filename : String)
  | completed
  | emailed
  | deleted (filename : String)
deriving Repr, DecidableEq

/-- The JSON success body of `POST /draft-orders/:id/create-invoice`. -/
structure CreateInvoiceResponse where
  invoice : Invoice
  pdfFilename : String
  orderCompleted : Bool
  emailSent : Bool
deriving Repr, DecidableEq

/-- Outcome of one request to the single-conversion handler. -/
inductive ApiResult where
  | ok (r : CreateInvoiceResponse)
  | notFound (msg : String)
  | err (msg : String)
deriving Repr, DecidableEq

/-- `POST /draft-orders/:id/create-invoice`: fetch the draft order (404
when absent, error propagated when the fetch fails), build the invoice
record, render the PDF, then optionally complete the order (together with
its metafield write) and optionally send the invoice email, in that order.
Any uncaught throw lands in the outer catch and the request fails.  The
second component is the effect log. -/
def createInvoice (fetch : Except String (Option DraftOrder))
    (render : Invoice → Except String String)
    (complete : Except String Unit) (send : Except String Unit)
    (sendEmail completeOrder : Bool) (p : Option String) :
    ApiResult × List Effect :=
  match fetch with
  | Except.error e => (ApiResult.err e, [])
  | Except.ok none => (ApiResult.notFound "Draft order not found", [])
  | Except.ok (some d) =>
    let inv := draftOrderToInvoice p d
    match render inv with
    | Except.error e => (ApiResult.err e, [])
    | Except.ok filename =>
      let log0 := [Effect.wrote filename]
      match (if completeOrder then complete else Except.ok ()) with
      | Except.error e => (ApiResult.err e, log0)
      | Except.ok _ =>
        let log1 := log0 ++ (if completeOrder then [Effect.completed] else [])
        match (if sendEmail && hasCustomerEmail d then send else Except.ok ()) with
        | Except.error e => (ApiResult.err e, log1)
        | Except.ok _ =>
          let log2 := log1 ++ (if sendEmail && hasCustomerEmail d then [Effect.emailed] else [])
          (ApiResult.ok { invoice := inv, pdfFilename := filename,
                          orderCompleted := completeOrder, emailSent := sendEmail }, log2)

/-! ## Email drafter (`POST /draft-orders/:id/generate-email`) -/

/-- The `{to, subject, body}` tuple the handler returns (`toRecipient`
embeds the JSON field `to`). -/
structure EmailResponse where
  toRecipient : String
  subject : String
  body : String
deriving Repr, DecidableEq

/-- Outcome of one request to the generate-email handler. -/
inductive EmailResult where
  | ok (r : EmailResponse)
  | notFound (msg : String)
  | err (msg : String)
deriving Repr, DecidableEq

/-- The customer display name the handler derives from the draft order. -/
def emailCustomerName (d : DraftOrder) : String :=
  match d.customer with
  | some c =>
    match c.first_name with
    | some fn =>
      if fn = "" then jsStrOr (d.billing_address.bind Address.name) "Valued Customer"
      else (fn ++ " " ++ jsStrOr c.last_name "").trim
    | none => jsStrOr (d.billing_address.bind Address.name) "Valued Customer"
  | none => jsStrOr (d.billing_address.bind Address.name) "Valued Customer"

/-- `generateTemplateEmail(name, orderName, total, products, invoiceUrl)`:
the deterministic fallback body. -/
def generateTemplateEmail (name orderName total productNames invoiceUrl : String) : String :=
  "Hi " ++ name ++ ",\n\n" ++
  "Thank you for your interest in Phoenix Phase Converters! I wanted to follow up on your quote "
  ++ orderName ++ " for " ++ productNames ++ ".\n\n" ++
  "Your quote total is $" ++ total ++ ".\n\n" ++
  "Here are a few things that make Phoenix Phase Converters stand out:\n" ++
  "• American-made quality with a 5-year warranty\n" ++
  "• Free shipping to the contiguous USA\n" ++
  "• 24/7 technical support included\n" ++
  "• CNC and compressor compatible\n\n" ++
  "You can view and pay your invoice here: " ++ invoiceUrl ++ "\n\n" ++
  "If you have any questions about sizing, installation, or anything else, feel free to reply to this email or give us a call at 1-800-417-6568.\n\n" ++
  "Looking forward to helping you get the power you need!\n\n" ++
  "Best regards,\nGlen\nPhoenix Phase Converters\n1-800-417-6568\nsupport@phoenixphaseconverters.com"

/-- Fixed-to-two-decimals rendering of an amount, JS `Number.toFixed(2)`. -/
def toFixed2 (amount : ℚ) : String :=
  let cents : Int := round (amount * 100)
  let sign := if cents < 0 then "-" else ""
  let n := cents.natAbs
  sign ++ natDecimal (n / 100) ++ "." ++ twoDigits (n % 100)

/-- `POST /draft-orders/:id/generate-email`: fetch the draft order; when
the generative key is configured, try the generative call (outcome given
by the `ai` oracle) and on its failure fall back to the template; when the
key is absent the template is used directly.  `aiKey` is the raw
`ANTHROPIC_API_KEY` env value. -/
def generateEmail (fetch : Except String (Option DraftOrder))
    (aiKey : Option String) (ai : Except String String) : EmailResult :=
  match fetch with
  | Except.error e => EmailResult.err e
  | Except.ok none => EmailResult.notFound "Draft order not found"
  | Except.ok (some d) =>
    let customerName := emailCustomerName d
    let customerEmail := jsStrOr (d.customer.bind Customer.email) (jsStrOr d.email "")
    let orderName := jsStrOr d.name ("#" ++ natDecimal d.id)
    let totalPrice := toFixed2 (parseOr0 d.total_price)
    let invoiceUrl := ""
    let productNames := String.intercalate ", " (d.line_items.map LineItem.title)
    let subject := "Your Phoenix Phase Converter Quote " ++ orderName
    let body :=
      if strTruthy aiKey then
        match ai with
        | Except.ok t => t
        | Except.error _ =>
          generateTemplateEmail customerName orderName totalPrice productNames invoiceUrl
      else
        generateTemplateEmail customerName orderName totalPrice productNames invoiceUrl
    EmailResult.ok { toRecipient := customerEmail, subject := subject, body := body }

/-! ## Invoice file store (`generatePDF` path handling and `getInvoice`) -/

/-- A flat directory as a map from path to file content. -/
def FileStore := String → Option String

/-- Write (or overwrite) one file. -/
def writeFile (fs : FileStore) (p content : String) : FileStore :=
  fun q => if q = p then some content else fs q

/-- The path `generatePDF` writes for an invoice:
`invoiceDir/invoiceNumber.pdf`, a function of the invoice number only. -/
def pdfPath (invoiceDir invoiceNumber : String) : String :=
  invoiceDir ++ "/" ++ invoiceNumber ++ ".pdf"

/-- The file-system action of `generatePDF`: write the rendered bytes at
the invoice's path, replacing whatever was there. -/
def generatePDFWrite (invoiceDir : String) (fs : FileStore) (inv : Invoice)
    (content : String) : FileStore :=
  writeFile fs (pdfPath invoiceDir inv.invoiceNumber) content

/-- `getInvoice(invoiceNumber)`: the path when the file exists, else null. -/
def getInvoice (invoiceDir : String) (fs : FileStore) (invoiceNumber : String) :
    Option String :=
  match fs (pdfPath invoiceDir invoiceNumber) with
  | some _ => some (pdfPath invoiceDir invoiceNumber)
  | none => none

/-! ## Helper lemmas -/

theorem digitChar_inj {a b : Nat} (ha : a < 10) (hb : b < 10)
    (h : digitChar a = digitChar b) : a = b := by
  interval_cases a <;> interval_cases b <;> simp_all [digitChar]

theorem map_digitChar_inj : ∀ (l1 l2 : List Nat), (∀ d ∈ l1, d < 10) → (∀ d ∈ l2, d < 10) →
    l1.map digitChar = l2.map digitChar → l1 = l2 := by
  intro l1
  induction l1 with
  | nil => intro l2 _ _ h; cases l2 <;> simp_all
  | cons a t ih =>
    intro l2 h1 h2 h
    cases l2 with
    | nil => simp_all
    | cons b s =>
      simp only [List.map_cons, List.cons.injEq] at h
      have hab : a = b := digitChar_inj (h1 a (by simp)) (h2 b (by simp)) h.1
      have hts : t = s := ih s (fun d hd => h1 d (by simp [hd])) (fun d hd => h2 d (by simp [hd])) h.2
      simp [hab, hts]

theorem digits10_lt (n : Nat) : ∀ d ∈ Nat.digits 10 n, d < 10 :=
  fun _ hd => Nat.digits_lt_base (by norm_num) hd

theorem map_digitChar_eq_singleton_zero {n : Nat}
    (h : (Nat.digits 10 n).map digitChar = ['0']) : n = 0 := by
  have h0 : (['0'] : List Char) = ([0] : List Nat).map digitChar := by simp [digitChar]
  have hdig : Nat.digits 10 n = [0] :=
    map_digitChar_inj _ [0] (digits10_lt n) (by simp) (by rw [h, h0])
  have := Nat.ofDigits_digits 10 n
  rw [hdig] at this
  simpa [Nat.ofDigits] using this.symm

theorem natDecimal_inj {m n : Nat} (h : natDecimal m = natDecimal n) : m = n := by
  unfold natDecimal at h
  by_cases hm : m = 0 <;> by_cases hn : n = 0
  · simp [hm, hn]
  · exfalso
    simp only [hm, if_pos rfl, if_neg hn] at h
    have h2 : ((Nat.digits 10 n).map digitChar).reverse = ['0'] := by
      have := congrArg String.data h
      simpa using this.symm
    have h3 : (Nat.digits 10 n).map digitChar = ['0'] := by
      have := congrArg List.reverse h2
      simpa using this
    exact hn (map_digitChar_eq_singleton_zero h3)
  · exfalso
    simp only [hn, if_pos rfl, if_neg hm] at h
    have h2 : ((Nat.digits 10 m).map digitChar).reverse = ['0'] := by
      have := congrArg String.data h
      simpa using this
    have h3 : (Nat.digits 10 m).map digitChar = ['0'] := by
      have := congrArg List.reverse h2
      simpa using this
    exact hm (map_digitChar_eq_singleton_zero h3)
  · simp only [if_neg hm, if_neg hn] at h
    have hdata : ((Nat.digits 10 m).map digitChar).reverse
        = ((Nat.digits 10 n).map digitChar).reverse := String.ext_iff.mp h
    have h2 : (Nat.digits 10 m).map digitChar = (Nat.digits 10 n).map digitChar := by
      have := congrArg List.reverse hdata
      simpa using this
    have h3 : Nat.digits 10 m = Nat.digits 10 n :=
      map_digitChar_inj _ _ (digits10_lt m) (digits10_lt n) h2
    exact Nat.digits.injective 10 h3

theorem string_append_left_cancel {p a b : String} (h : p ++ a = p ++ b) : a = b := by
  apply String.ext
  have hd := congrArg String.data h
  simp only [String.data_append] at hd
  exact List.append_cancel_left hd

theorem length_filter_add_length_filter_not {α : Type} (l : List α) (q : α → Bool) :
    (l.filter q).length + (l.filter (fun a => !(q a))).length = l.length := by
  induction l with
  | nil => rfl
  | cons a t ih =>
    cases h : q a <;> simp [List.filter_cons, h, Nat.add_right_comm, ih, Nat.add_assoc]
    · omega
    · omega

/-! ## Claim C1: the invoice total invariant -/

/-- A quote whose platform `total_price` (150) disagrees with its component
fields (subtotal 100, no shipping, no discount, tax always 0). -/
def quoteTotalMismatch : DraftOrder :=
  { id := 42, name := none, subtotal_price := some 100, total_price := some 150,
    total_discounts := none, total_tax := none, shipping_line := none,
    total_shipping_price_set := none, applied_discount := none, customer := none,
    email := none, billing_address := none, shipping_address := none,
    line_items := [], currency := none }

/-- C1 counterexample: `draftOrderToInvoice` copies the quote's
`total_price` verbatim whenever it is present and nonzero, so the derived
record can violate `total = subtotal + shipping + tax - discount` by far
more than one cent (here by 50 dollars). -/
theorem c1_total_invariant_counterexample :
    ¬ (|(draftOrderToInvoice none quoteTotalMismatch).total -
        ((draftOrderToInvoice none quoteTotalMismatch).subtotal +
         (draftOrderToInvoice none quoteTotalMismatch).shippingCost +
         (draftOrderToInvoice none quoteTotalMismatch).taxAmount -
         (draftOrderToInvoice none quoteTotalMismatch).discountAmount)| ≤ 1 / 100) := by
  show ¬ (|(150 : ℚ) - (100 + 0 + 0 - 0)| ≤ 1 / 100)
  norm_num

/-- C1 (amended): the rendered invoice always carries `taxAmount = 0`, and
whenever the quote's `total_price` is absent, unparseable or zero — the
only case in which `draftOrderToInvoice` computes the total itself — the
total satisfies `total = subtotal + shipping + tax - discount` exactly.
The record is a pure function of the quote snapshot, so a later change to
the source quote leaves a previously derived record unchanged. -/
theorem c1_total_invariant_amended (p : Option String) (d : DraftOrder)
    (h : d.total_price = none ∨ d.total_price = some 0) :
    (draftOrderToInvoice p d).taxAmount = 0 ∧
    (draftOrderToInvoice p d).total =
      (draftOrderToInvoice p d).subtotal + (draftOrderToInvoice p d).shippingCost +
      (draftOrderToInvoice p d).taxAmount - (draftOrderToInvoice p d).discountAmount := by
  refine ⟨rfl, ?_⟩
  rcases h with h | h <;> simp [draftOrderToInvoice, jsNumOr, h]

/-- A quote on the fallback path: no `total_price`, subtotal 100,
shipping 25, discount 10. -/
def quoteFallbackTotal : DraftOrder :=
  { id := 43, name := none, subtotal_price := some 100, total_price := none,
    total_discounts := some 10, total_tax := none,
    shipping_line := some { price := some 25, title := some "Shipping" },
    total_shipping_price_set := none, applied_discount := none, customer := none,
    email := none, billing_address := none, shipping_address := none,
    line_items := [], currency := none }

/-- Witness for the amended C1 at a concrete fallback-path quote. -/
theorem c1_total_invariant_witness :
    (quoteFallbackTotal.total_price = none ∨ quoteFallbackTotal.total_price = some 0) ∧
    ((draftOrderToInvoice none quoteFallbackTotal).taxAmount = 0 ∧
     (draftOrderToInvoice none quoteFallbackTotal).total =
       (draftOrderToInvoice none quoteFallbackTotal).subtotal +
       (draftOrderToInvoice none quoteFallbackTotal).shippingCost +
       (draftOrderToInvoice none quoteFallbackTotal).taxAmount -
       (draftOrderToInvoice none quoteFallbackTotal).discountAmount) :=
  ⟨Or.inl rfl, c1_total_invariant_amended none quoteFallbackTotal (Or.inl rfl)⟩

/-! ## Claim C6: zero shipping renders as the literal "Free" -/

/-- C6: for every quote whose derived shipping cost is 0, the shipping
value cell of the rendered totals block is the literal `Free`, not a
formatted currency amount. -/
theorem c6_zero_shipping_renders_free (p : Option String) (d : DraftOrder)
    (h : (draftOrderToInvoice p d).shippingCost = 0) :
    (totalsBlock (draftOrderToInvoice p d)).shippingValue = "Free" := by
  simp [totalsBlock, shippingLineValue, h]

/-- A quote with no shipping information at all, so shipping cost 0. -/
def quoteFreeShipping : DraftOrder :=
  { id := 44, name := none, subtotal_price := some 200, total_price := some 200,
    total_discounts := none, total_tax := none, shipping_line := none,
    total_shipping_price_set := none, applied_discount := none, customer := none,
    email := none, billing_address := none, shipping_address := none,
    line_items := [], currency := none }

/-- Witness for C6 at a concrete zero-shipping quote. -/
theorem c6_zero_shipping_renders_free_witness :
    (draftOrderToInvoice none quoteFreeShipping).shippingCost = 0 ∧
    (totalsBlock (draftOrderToInvoice none quoteFreeShipping)).shippingValue = "Free" :=
  ⟨rfl, c6_zero_shipping_renders_free none quoteFreeShipping rfl⟩

/-! ## Claim C7: discount and tax lines are conditional -/

/-- C7: for every rendered invoice the discount line and the tax line are
omitted exactly when their value is 0 and present exactly when their
value is positive. -/
theorem c7_discount_tax_lines_conditional (p : Option String) (d : DraftOrder) :
    ((draftOrderToInvoice p d).discountAmount = 0 →
      (totalsBlock (draftOrderToInvoice p d)).discountLine = none) ∧
    (0 < (draftOrderToInvoice p d).discountAmount →
      ((totalsBlock (draftOrderToInvoice p d)).discountLine).isSome = true) ∧
    ((draftOrderToInvoice p d).taxAmount = 0 →
      (totalsBlock (draftOrderToInvoice p d)).taxLine = none) ∧
    (0 < (draftOrderToInvoice p d).taxAmount →
      ((totalsBlock (draftOrderToInvoice p d)).taxLine).isSome = true) := by
  refine ⟨fun h => ?_, fun h => ?_, fun h => ?_, fun h => ?_⟩ <;>
    simp [totalsBlock, h, lt_irrefl]

/-- The spec's worked example: subtotal 500, discount 50, shipping 25, no
platform total, so the derived total is 475. -/
def quoteWithDiscount : DraftOrder :=
  { id := 45, name := none, subtotal_price := some 500, total_price := none,
    total_discounts := none, total_tax := none,
    shipping_line := some { price := some 25, title := some "Shipping" },
    total_shipping_price_set := none,
    applied_discount := some { amount := some 50, title := some "Discount", description := none },
    customer := none, email := none, billing_address := none, shipping_address := none,
    line_items := [], currency := none }

/-- The same quote with no discount at all. -/
def quoteNoDiscount : DraftOrder :=
  { id := 46, name := none, subtotal_price := some 500, total_price := none,
    total_discounts := none, total_tax := none,
    shipping_line := some { price := some 25, title := some "Shipping" },
    total_shipping_price_set := none, applied_discount := none, customer := none,
    email := none, billing_address := none, shipping_address := none,
    line_items := [], currency := none }

/-- Witness for C7 at the spec's worked example: total 475 with a discount
line present, and no discount line when the discount is 0. -/
theorem c7_discount_tax_lines_conditional_witness :
    (draftOrderToInvoice none quoteWithDiscount).total = 475 ∧
    ((totalsBlock (draftOrderToInvoice none quoteWithDiscount)).discountLine).isSome = true ∧
    (draftOrderToInvoice none quoteNoDiscount).discountAmount = 0 ∧
    (totalsBlock (draftOrderToInvoice none quoteNoDiscount)).discountLine = none :=
  ⟨by norm_num [draftOrderToInvoice, quoteWithDiscount, jsNumOr, parseOr0],
   (c7_discount_tax_lines_conditional none quoteWithDiscount).2.1
     (by show (0 : ℚ) < 50; norm_num),
   rfl,
   (c7_discount_tax_lines_conditional none quoteNoDiscount).1 rfl⟩

/-! ## Claim C8: the invoice number is deterministic and collision-free -/

/-- C8: for a fixed `INVOICE_PREFIX` environment, deriving the invoice
number twice for the same identifier yields the same string, and equal
invoice numbers force equal identifiers (no collision). -/
theorem c8_invoice_number_deterministic_injective (p : Option String) (id1 id2 : Nat) :
    generateInvoiceNumber p id1 = generateInvoiceNumber p id1 ∧
    (generateInvoiceNumber p id1 = generateInvoiceNumber p id2 → id1 = id2) := by
  refine ⟨rfl, fun h => ?_⟩
  unfold generateInvoiceNumber at h
  exact natDecimal_inj (string_append_left_cancel h)

/-- Witness for C8 at concrete identifiers. -/
theorem c8_invoice_number_witness :
    generateInvoiceNumber none 2257 = generateInvoiceNumber none 2257 ∧ (2257 : Nat) = 2257 :=
  ⟨(c8_invoice_number_deterministic_injective none 2257 2257).1,
   (c8_invoice_number_deterministic_injective none 2257 2257).2 rfl⟩

/-! ## Claim C10: the PDF path is a function of the invoice number only -/

/-- C10: the written path depends only on the invoice number; re-rendering
an invoice with the same number writes the same path and replaces the
previous content; `getInvoice` then resolves the number to that path (the
most recent render); no other path is touched. -/
theorem c10_pdf_path_replaces (dir : String) (fs : FileStore) (inv inv' : Invoice)
    (c1 c2 : String) (h : inv.invoiceNumber = inv'.invoiceNumber) :
    pdfPath dir inv.invoiceNumber = pdfPath dir inv'.invoiceNumber ∧
    (generatePDFWrite dir (generatePDFWrite dir fs inv c1) inv c2)
        (pdfPath dir inv.invoiceNumber) = some c2 ∧
    getInvoice dir (generatePDFWrite dir (generatePDFWrite dir fs inv c1) inv c2)
        inv.invoiceNumber = some (pdfPath dir inv.invoiceNumber) ∧
    (∀ q, q ≠ pdfPath dir inv.invoiceNumber →
      (generatePDFWrite dir (generatePDFWrite dir fs inv c1) inv c2) q = fs q) := by
  refine ⟨by rw [h], ?_, ?_, fun q hq => ?_⟩
  · simp [generatePDFWrite, writeFile]
  · simp [getInvoice, generatePDFWrite, writeFile]
  · simp [generatePDFWrite, writeFile, hq]

/-- Witness for C10 at a concrete store and invoice. -/
theorem c10_pdf_path_replaces_witness :
    (draftOrderToInvoice none quoteFreeShipping).invoiceNumber =
      (draftOrderToInvoice none quoteFreeShipping).invoiceNumber ∧
    (generatePDFWrite "invoices"
        (generatePDFWrite "invoices" (fun _ => none)
          (draftOrderToInvoice none quoteFreeShipping) "v1")
        (draftOrderToInvoice none quoteFreeShipping) "v2")
      (pdfPath "invoices" (draftOrderToInvoice none quoteFreeShipping).invoiceNumber) = some "v2" :=
  ⟨rfl,
   (c10_pdf_path_replaces "invoices" (fun _ => none)
      (draftOrderToInvoice none quoteFreeShipping)
      (draftOrderToInvoice none quoteFreeShipping) "v1" "v2" rfl).2.1⟩

/-! ## Claim C2: batch conversion counts and failure isolation -/

theorem processOne_exactly_one (fetch : Nat → Except String (Option DraftOrder))
    (render : Invoice → Except String String)
    (complete : Nat → Except String Unit) (send : Nat → Except String Unit)
    (se co : Bool) (p : Option String) (id : Nat) :
    ((processOne fetch render complete send se co p id).success = true →
      ((processOne fetch render complete send se co p id).invoiceNumber).isSome = true ∧
      ((processOne fetch render complete send se co p id).total).isSome = true ∧
      (processOne fetch render complete send se co p id).error = none) ∧
    ((processOne fetch render complete send se co p id).success = false →
      ((processOne fetch render complete send se co p id).error).isSome = true ∧
      (processOne fetch render complete send se co p id).invoiceNumber = none ∧
      (processOne fetch render complete send se co p id).total = none) := by
  cases hf : fetch id with
  | error e => simp [processOne, hf]
  | ok od =>
    cases od with
    | none => simp [processOne, hf]
    | some d =>
      cases hr : render (draftOrderToInvoice p d) with
      | error e => simp [processOne, hf, hr]
      | ok f =>
        cases hc : (if co = true then complete id else Except.ok ()) with
        | error e =>
          simp only [processOne, hf, hr, hc]
          simp
        | ok u =>
          cases hs : (if (se && hasCustomerEmail d) = true then send id else Except.ok ()) with
          | error e =>
            simp only [processOne, hf, hr, hc, hs]
            simp
          | ok u2 =>
            simp only [processOne, hf, hr, hc, hs]
            simp

/-- C2: batch conversion of N identifiers reports `processed = N`,
`failed = K` where K is the number of identifiers whose own processing
fails, `successful = N - K`; every result entry carries either a success
payload or an error message, never both and never neither; and the result
list is the independent image of the identifier list, so one identifier's
failure does not abort processing of the others. -/
theorem c2_batch_counts (fetch : Nat → Except String (Option DraftOrder))
    (render : Invoice → Except String String)
    (complete : Nat → Except String Unit) (send : Nat → Except String Unit)
    (se co : Bool) (p : Option String) (ids : List Nat) :
    (batchInvoice fetch render complete send se co p ids).results =
      ids.map (processOne fetch render complete send se co p) ∧
    (batchInvoice fetch render complete send se co p ids).processed = ids.length ∧
    (batchInvoice fetch render complete send se co p ids).failed =
      (ids.filter
        (fun i => !(processOne fetch render complete send se co p i).success)).length ∧
    (batchInvoice fetch render complete send se co p ids).successful +
      (batchInvoice fetch render complete send se co p ids).failed =
      (batchInvoice fetch render complete send se co p ids).processed ∧
    (batchInvoice fetch render complete send se co p ids).successful =
      (batchInvoice fetch render complete send se co p ids).processed -
      (batchInvoice fetch render complete send se co p ids).failed ∧
    ∀ e ∈ (batchInvoice fetch render complete send se co p ids).results,
      (e.success = true →
        (e.invoiceNumber).isSome = true ∧ (e.total).isSome = true ∧ e.error = none) ∧
      (e.success = false →
        (e.error).isSome = true ∧ e.invoiceNumber = none ∧ e.total = none) := by
  have hsum :
      (batchInvoice fetch render complete send se co p ids).successful +
        (batchInvoice fetch render complete send se co p ids).failed =
        (batchInvoice fetch render complete send se co p ids).processed :=
    length_filter_add_length_filter_not
      (ids.map (processOne fetch render complete send se co p)) (fun r => r.success)
  refine ⟨rfl, by simp [batchInvoice], ?_, hsum, by omega, ?_⟩
  · simp [batchInvoice, List.filter_map, Function.comp_def]
  · intro e he
    simp only [batchInvoice, List.mem_map] at he
    obtain ⟨i, _, hi⟩ := he
    exact hi ▸ processOne_exactly_one fetch render complete send se co p i

/-- Oracles for the C2 witness: identifier 2 resolves to a quote, others
are not found; render, complete and send succeed. -/
def fetchW : Nat → Except String (Option DraftOrder) :=
  fun i => if i = 2 then Except.ok (some quoteFreeShipping) else Except.ok none

def renderW : Invoice → Except String String :=
  fun inv => Except.ok (inv.invoiceNumber ++ ".pdf")

def remoteOkW : Nat → Except String Unit := fun _ => Except.ok ()

/-- Witness for C2: two identifiers of which exactly one fails give
`processed = 2`, `failed = 1`, `successful = 1`. -/
theorem c2_batch_counts_witness :
    (batchInvoice fetchW renderW remoteOkW remoteOkW false false none [1, 2]).processed = 2 ∧
    (batchInvoice fetchW renderW remoteOkW remoteOkW false false none [1, 2]).failed = 1 ∧
    (batchInvoice fetchW renderW remoteOkW remoteOkW false false none [1, 2]).successful = 1 := by
  have h := c2_batch_counts fetchW renderW remoteOkW remoteOkW false false none [1, 2]
  refine ⟨h.2.1, ?_, ?_⟩
  · rw [h.2.2.1]; rfl
  · rw [h.2.2.2.2.1, h.2.1, h.2.2.1]; rfl

/-! ## Claim C3: single conversion orchestration -/

/-- C3 counterexample: with a fetchable quote, a successful render and a
failing "complete" step, the handler does not return the render result —
the error propagates and the whole request fails (the response is the
error, not a success payload carrying the PDF), although the written PDF
effect is still on the log. -/
theorem c3_single_conversion_counterexample :
    (createInvoice (Except.ok (some quoteTotalMismatch)) (fun _ => Except.ok "INV-42.pdf")
        (Except.error "complete failed") (Except.ok ()) false true none).1 =
      ApiResult.err "complete failed" ∧
    (createInvoice (Except.ok (some quoteTotalMismatch)) (fun _ => Except.ok "INV-42.pdf")
        (Except.error "complete failed") (Except.ok ()) false true none).2 =
      [Effect.wrote "INV-42.pdf"] := by
  constructor <;> rfl

/-- C3 (amended): a fetch failure fails the whole operation with the error
propagated; the steps happen in the fixed order render, complete, email; a
failure in the complete step (or the email step) after a successful render
makes the whole request fail with that error — the render result is NOT
returned to the caller — but the rendered PDF is not deleted: the write
effect stays on the log and no delete effect is ever emitted. -/
theorem c3_single_conversion_amended (fetch : Except String (Option DraftOrder))
    (render : Invoice → Except String String)
    (complete send : Except String Unit) (sendEmail completeOrder : Bool) (p : Option String) :
    (∀ e, fetch = Except.error e →
      createInvoice fetch render complete send sendEmail completeOrder p =
        (ApiResult.err e, [])) ∧
    (∀ d f e, fetch = Except.ok (some d) →
      render (draftOrderToInvoice p d) = Except.ok f →
      completeOrder = true → complete = Except.error e →
      createInvoice fetch render complete send sendEmail completeOrder p =
        (ApiResult.err e, [Effect.wrote f])) ∧
    (∀ d f e, fetch = Except.ok (some d) →
      render (draftOrderToInvoice p d) = Except.ok f →
      (if completeOrder = true then complete else Except.ok ()) = Except.ok () →
      (sendEmail && hasCustomerEmail d) = true → send = Except.error e →
      (createInvoice fetch render complete send sendEmail completeOrder p).1 =
          ApiResult.err e ∧
      Effect.wrote f ∈ (createInvoice fetch render complete send sendEmail completeOrder p).2) ∧
    (∀ f, Effect.deleted f ∉
      (createInvoice fetch render complete send sendEmail completeOrder p).2) ∧
    (∃ f, (createInvoice fetch render complete send sendEmail completeOrder p).2 = [] ∨
      (createInvoice fetch render complete send sendEmail completeOrder p).2 =
        [Effect.wrote f] ∨
      (createInvoice fetch render complete send sendEmail completeOrder p).2 =
        [Effect.wrote f, Effect.completed] ∨
      (createInvoice fetch render complete send sendEmail completeOrder p).2 =
        [Effect.wrote f, Effect.emailed] ∨
      (createInvoice fetch render complete send sendEmail completeOrder p).2 =
        [Effect.wrote f, Effect.completed, Effect.emailed]) := by
  refine ⟨fun e he => ?_, fun d f e hd hf hco hc => ?_, fun d f e hd hf hc hs hse => ?_, ?_⟩
  · simp [createInvoice, he]
  · simp [createInvoice, hd, hf, hco, hc]
  · constructor
    · simp only [createInvoice, hd, hf, hc, hs, hse]
      simp
    · simp only [createInvoice, hd, hf, hc, hs, hse]
      simp
  · cases hfe : fetch with
    | error e => simp [createInvoice, hfe]
    | ok od =>
      cases od with
      | none => simp [createInvoice, hfe]
      | some d =>
        cases hr : render (draftOrderToInvoice p d) with
        | error e => simp [createInvoice, hfe, hr]
        | ok f =>
          cases hc : (if completeOrder = true then complete else Except.ok ()) with
          | error e =>
            constructor
            · intro g
              simp only [createInvoice, hfe, hr, hc]
              simp
            · refine ⟨f, ?_⟩
              simp only [createInvoice, hfe, hr, hc]
              simp
          | ok u =>
            cases hs : (if (sendEmail && hasCustomerEmail d) = true then send else Except.ok ()) with
            | error e =>
              constructor
              · intro g
                simp only [createInvoice, hfe, hr, hc, hs]
                cases hco : completeOrder <;> simp [hco]
              · refine ⟨f, ?_⟩
                simp only [createInvoice, hfe, hr, hc, hs]
                cases hco : completeOrder <;> simp [hco]
            | ok u2 =>
              constructor
              · intro g
                simp only [createInvoice, hfe, hr, hc, hs]
                cases hco : completeOrder <;>
                  cases hmail : (sendEmail && hasCustomerEmail d) <;>
                    simp [hco, hmail]
              · refine ⟨f, ?_⟩
                simp only [createInvoice, hfe, hr, hc, hs]
                cases hco : completeOrder <;>
                  cases hmail : (sendEmail && hasCustomerEmail d) <;>
                    simp [hco, hmail]

/-- Witness for the amended C3: concrete quote, successful render, failing
complete step. -/
theorem c3_single_conversion_amended_witness :
    createInvoice (Except.ok (some quoteFreeShipping)) (fun _ => Except.ok "INV-44.pdf")
        (Except.error "boom") (Except.ok ()) false true none =
      (ApiResult.err "boom", [Effect.wrote "INV-44.pdf"]) :=
  (c3_single_conversion_amended (Except.ok (some quoteFreeShipping))
      (fun _ => Except.ok "INV-44.pdf") (Except.error "boom") (Except.ok ())
      false true none).2.1 quoteFreeShipping "INV-44.pdf" "boom" rfl rfl rfl rfl

/-! ## Claim C4: one retry on 401, no second retry -/

/-- C4: starting from a state holding a valid cached token, a 401 on the
data call discards the cached token and retries the request exactly once
with a freshly fetched token (one token exchange, two data calls in
total); if the retry also returns 401 the error propagates with no
further attempt, and if the retry succeeds its data is returned. -/
theorem c4_retry_once_on_401 (tokenOracle : Nat → Except String String)
    (httpOracle : Nat → HttpResp) (now : Int) (st : ClientState) (tr : Trace)
    (tok m1 m2 dat : String)
    (hvalid : tokenValid st now = true)
    (h401 : httpOracle tr.httpCalls = HttpResp.status 401 m1)
    (htok : tokenOracle tr.tokenCalls = Except.ok tok) :
    (httpOracle (tr.httpCalls + 1) = HttpResp.status 401 m2 →
      requestWithHeaders tokenOracle httpOracle now st tr =
        (Except.error m2,
         { accessToken := some tok, tokenExpiry := some (now + 82800000) },
         { tokenCalls := tr.tokenCalls + 1, httpCalls := tr.httpCalls + 2 })) ∧
    (httpOracle (tr.httpCalls + 1) = HttpResp.ok dat →
      requestWithHeaders tokenOracle httpOracle now st tr =
        (Except.ok dat,
         { accessToken := some tok, tokenExpiry := some (now + 82800000) },
         { tokenCalls := tr.tokenCalls + 1, httpCalls := tr.httpCalls + 2 })) := by
  have hinvalid : tokenValid { st with accessToken := none } now = false := by
    simp [tokenValid]
  constructor <;> intro hretry <;>
    simp [requestWithHeaders, attempt, getAccessToken, hvalid, hinvalid, h401, htok, hretry]

/-- A cached state whose token is valid at time 0. -/
def cachedStateW : ClientState := { accessToken := some "tokA", tokenExpiry := some 1000000 }

/-- Oracle for the C4 witness: every exchange yields the fresh token. -/
def tokenOracleW : Nat → Except String String := fun _ => Except.ok "tokB"

/-- Oracle for the C4 witness: both data calls return 401. -/
def httpOracle401W : Nat → HttpResp := fun k =>
  if k = 0 then HttpResp.status 401 "unauthorized once"
  else HttpResp.status 401 "unauthorized twice"

/-- Witness for C4: two consecutive 401s propagate the second error after
exactly one token refresh and exactly two data calls. -/
theorem c4_retry_once_on_401_witness :
    requestWithHeaders tokenOracleW httpOracle401W 0 cachedStateW
        { tokenCalls := 0, httpCalls := 0 } =
      (Except.error "unauthorized twice",
       { accessToken := some "tokB", tokenExpiry := some 82800000 },
       { tokenCalls := 1, httpCalls := 2 }) := by
  have h := (c4_retry_once_on_401 tokenOracleW httpOracle401W 0 cachedStateW
    { tokenCalls := 0, httpCalls := 0 } "tokB" "unauthorized once" "unauthorized twice" ""
    (by decide) rfl rfl).1 rfl
  simpa using h

/-! ## Claim C5: token cache reuse inside the validity window -/

/-- C5: while the client holds a cached token with `now < expiry - 5 min`,
`getAccessToken` returns it without issuing any token-exchange call; and
starting from the empty cache, two calls whose second falls inside the
validity window opened by the first issue exactly one token-exchange call
and return the same token string both times. -/
theorem c5_token_cache_reuse (tokenOracle : Nat → Except String String)
    (tok : String) (now1 now2 : Int)
    (h0 : tokenOracle 0 = Except.ok tok) (hne : tok ≠ "")
    (hpos : 0 ≤ now1) (hwin : now2 < now1 + 82800000 - 300000) :
    (∀ (st : ClientState) (tr : Trace) (now : Int), tokenValid st now = true →
      getAccessToken tokenOracle now st tr =
        (Except.ok (st.accessToken.getD ""), st, tr)) ∧
    (getAccessToken tokenOracle now1 initialClientState { tokenCalls := 0, httpCalls := 0 }).1 =
      Except.ok tok ∧
    (getAccessToken tokenOracle now2
      (getAccessToken tokenOracle now1 initialClientState
        { tokenCalls := 0, httpCalls := 0 }).2.1
      (getAccessToken tokenOracle now1 initialClientState
        { tokenCalls := 0, httpCalls := 0 }).2.2).1 = Except.ok tok ∧
    (getAccessToken tokenOracle now2
      (getAccessToken tokenOracle now1 initialClientState
        { tokenCalls := 0, httpCalls := 0 }).2.1
      (getAccessToken tokenOracle now1 initialClientState
        { tokenCalls := 0, httpCalls := 0 }).2.2).2.2.tokenCalls = 1 := by
  have hfirst : getAccessToken tokenOracle now1 initialClientState
      { tokenCalls := 0, httpCalls := 0 } =
      (Except.ok tok,
       { accessToken := some tok, tokenExpiry := some (now1 + 82800000) },
       { tokenCalls := 1, httpCalls := 0 }) := by
    simp [getAccessToken, tokenValid, initialClientState, h0]
  have hvalid2 : tokenValid
      { accessToken := some tok, tokenExpiry := some (now1 + 82800000) } now2 = true := by
    simp only [tokenValid]
    have hene : now1 + 82800000 ≠ 0 := by omega
    simp [hne, hene]
    omega
  refine ⟨fun st tr now hv => by simp [getAccessToken, hv], ?_, ?_, ?_⟩
  · rw [hfirst]
  · rw [hfirst]
    simp [getAccessToken, hvalid2]
  · rw [hfirst]
    simp [getAccessToken, hvalid2]

/-- Witness for C5 at concrete times: a first call at time 0 and a second
call one hour later reuse the same token with a single exchange. -/
theorem c5_token_cache_reuse_witness :
    (getAccessToken tokenOracleW 3600000
      (getAccessToken tokenOracleW 0 initialClientState
        { tokenCalls := 0, httpCalls := 0 }).2.1
      (getAccessToken tokenOracleW 0 initialClientState
        { tokenCalls := 0, httpCalls := 0 }).2.2).1 = Except.ok "tokB" ∧
    (getAccessToken tokenOracleW 3600000
      (getAccessToken tokenOracleW 0 initialClientState
        { tokenCalls := 0, httpCalls := 0 }).2.1
      (getAccessToken tokenOracleW 0 initialClientState
        { tokenCalls := 0, httpCalls := 0 }).2.2).2.2.tokenCalls = 1 := by
  have h := c5_token_cache_reuse tokenOracleW "tokB" 0 3600000 rfl
    (by decide) (by norm_num) (by norm_num)
  exact ⟨h.2.2.1, h.2.2.2⟩

/-! ## Claim C9: generative email failures fall back to the template -/

theorem generateTemplateEmail_ne_empty (a b c d e : String) :
    generateTemplateEmail a b c d e ≠ "" := by
  intro h
  have h2 := congrArg String.length h
  simp only [generateTemplateEmail, String.length_append] at h2
  have h3 : ("Hi " : String).length = 3 := rfl
  have h4 : ("" : String).length = 0 := rfl
  omega

/-- C9: once the draft order is fetched, an unconfigured generative key or
a failing generative call never makes the handler raise — it silently
falls back to the deterministic template, so the caller receives a
`{to, subject, body}` tuple whose body is the (non-empty) template. -/
theorem c9_email_fallback (fetch : Except String (Option DraftOrder))
    (d : DraftOrder) (aiKey : Option String) (ai : Except String String)
    (hfetch : fetch = Except.ok (some d))
    (hfail : strTruthy aiKey = false ∨ ∃ e, ai = Except.error e) :
    generateEmail fetch aiKey ai = EmailResult.ok
      { toRecipient := jsStrOr (d.customer.bind Customer.email) (jsStrOr d.email ""),
        subject := "Your Phoenix Phase Converter Quote " ++
          jsStrOr d.name ("#" ++ natDecimal d.id),
        body := generateTemplateEmail (emailCustomerName d)
          (jsStrOr d.name ("#" ++ natDecimal d.id)) (toFixed2 (parseOr0 d.total_price))
          (String.intercalate ", " (d.line_items.map LineItem.title)) "" } ∧
    generateTemplateEmail (emailCustomerName d) (jsStrOr d.name ("#" ++ natDecimal d.id))
      (toFixed2 (parseOr0 d.total_price))
      (String.intercalate ", " (d.line_items.map LineItem.title)) "" ≠ "" := by
  refine ⟨?_, generateTemplateEmail_ne_empty _ _ _ _ _⟩
  subst hfetch
  rcases hfail with hk | ⟨e, he⟩
  · simp [generateEmail, hk]
  · subst he
    cases hkk : strTruthy aiKey <;> simp [generateEmail, hkk]

/-- Witness for C9 at a concrete quote with no generative key and a failing
generative call. -/
theorem c9_email_fallback_witness :
    generateEmail (Except.ok (some quoteFreeShipping)) none (Except.error "down") =
      EmailResult.ok
        { toRecipient := jsStrOr (quoteFreeShipping.customer.bind Customer.email)
            (jsStrOr quoteFreeShipping.email ""),
          subject := "Your Phoenix Phase Converter Quote " ++
            jsStrOr quoteFreeShipping.name ("#" ++ natDecimal quoteFreeShipping.id),
          body := generateTemplateEmail (emailCustomerName quoteFreeShipping)
            (jsStrOr quoteFreeShipping.name ("#" ++ natDecimal quoteFreeShipping.id))
            (toFixed2 (parseOr0 quoteFreeShipping.total_price))
            (String.intercalate ", " (quoteFreeShipping.line_items.map LineItem.title)) "" } ∧
    generateTemplateEmail (emailCustomerName quoteFreeShipping)
      (jsStrOr quoteFreeShipping.name ("#" ++ natDecimal quoteFreeShipping.id))
      (toFixed2 (parseOr0 quoteFreeShipping.total_price))
      (String.intercalate ", " (quoteFreeShipping.line_items.map LineItem.title)) "" ≠ "" :=
  c9_email_fallback (Except.ok (some quoteFreeShipping)) quoteFreeShipping none
    (Except.error "down") rfl (Or.inl rfl)
